import Mathlib

/-!
Verification of the bstore_server backend against its specification.

The repository contains three Express server variants:
* `src/unnamed/part_000`: Cloudinary-backed images with local JSON files
  (`products.json`, `receipts.json`, `settings.json`);
* `src/unnamed/part_001`, first document: local-disk uploads variant;
* `src/unnamed/part_001`, second document: the cloud-object-store variant in
  which JSON documents themselves live in Cloudinary under the `bstore_data`
  folder (`saveJsonToCloudinary` / `loadJsonFromCloudinary` /
  `ensureJsonExists`).

This file gives a shallow embedding of the request handlers and the JSON
document store of those variants.  JavaScript semantics is made explicit:
* JS falsiness (`!data`, `x || y`) is modelled on an explicit `Json` datatype
  and on `Option String` request fields (`none` = the field is `undefined`,
  `some ""` = present but empty, which is falsy);
* `parseInt` is modelled exactly (leading whitespace, optional sign,
  `0x`/`0X` hexadecimal prefix when the radix argument is omitted, longest
  digit run, `NaN` represented as `none`);
* `Array.prototype.findIndex` returning `-1` is modelled as an
  `Option Nat` (`none` = `-1`); `splice(i, 1)` is `List.eraseIdx`;
  in-place element mutation is `List.set`;
* a rejected `cloudinary.uploader.destroy` promise is modelled by a boolean
  input `destroyFails`; in an `async` handler with no `try`/`catch` a
  rejection aborts the handler (outcome `HResp.thrown`), while inside a
  `try`/`catch` it is swallowed;
* `JSON.stringify` on upload and `response.json()` on fetch are a runtime
  round trip; the store is therefore modelled as holding `Json` values
  directly, keyed by the full Cloudinary public id.
-/

/-! ## JSON values and the Cloudinary JSON document store (part_001, lines 136-174) -/

/-- A JSON value, the data stored in the `bstore_data` documents. -/
inductive Json where
  | null
  | bool (b : Bool)
  | num (n : Int)
  | str (s : String)
  | arr (elems : List Json)
  | obj (fields : List (String × Json))

/-- JavaScript truthiness of a JSON value: `null`, `false`, `0` and `""` are
falsy; arrays and objects are always truthy. Used by the `if (!data)` test in
`ensureJsonExists`. -/
def Json.truthy : Json → Bool
  | .null => false
  | .bool b => b
  | .num n => n != 0
  | .str s => s != ""
  | .arr _ => true
  | .obj _ => true

/-- The external Cloudinary raw-object store, restricted to what the JSON
helpers use: an association list from full public id (folder included) to the
stored JSON document.  Lookup returns the most recent write for a key. -/
def Store : Type := List (String × Json)

/-- The empty store (no documents uploaded yet). -/
def Store.empty : Store := []

/-- Full public id of a document: `saveJsonToCloudinary` uploads under
`folder: "bstore_data"`, and `loadJsonFromCloudinary` fetches
`bstore_data/<publicId>`. -/
def docKey (publicId : String) : String := "bstore_data/" ++ publicId

/-- `saveJsonToCloudinary(publicId, jsonData)` (part_001 lines 136-150):
serializes and uploads with `overwrite: true` under `bstore_data/<publicId>`.
The upload callback only logs; the save itself never rejects. -/
def saveJsonToCloudinary (publicId : String) (jsonData : Json) (st : Store) : Store :=
  (docKey publicId, jsonData) :: st

/-- `loadJsonFromCloudinary(publicId)` (part_001 lines 152-164): fetches
`bstore_data/<publicId>` and parses it; any failure (in particular a missing
document) is caught and yields `null`, modelled as `none`. -/
def loadJsonFromCloudinary (publicId : String) (st : Store) : Option Json :=
  st.lookup (docKey publicId)

/-- Result of `ensureJsonExists`: the returned value, the store afterwards,
and the number of store writes performed (0 or 1). -/
structure EnsureOut where
  value : Json
  store : Store
  writes : Nat

/-- `ensureJsonExists(publicId, defaultValue)` (part_001 lines 167-174):
`load`; `if (!data)` — i.e. the value is absent *or JS-falsy* — save the
default and return it, else return the loaded value. -/
def ensureJsonExists (publicId : String) (defaultValue : Json) (st : Store) : EnsureOut :=
  match loadJsonFromCloudinary publicId st with
  | some data =>
    if data.truthy then ⟨data, st, 0⟩
    else ⟨defaultValue, saveJsonToCloudinary publicId defaultValue st, 1⟩
  | none => ⟨defaultValue, saveJsonToCloudinary publicId defaultValue st, 1⟩

/-- Two consecutive `ensureJsonExists` calls with no intervening save:
both returned values and the total number of store writes. -/
structure EnsureTwiceOut where
  first : Json
  second : Json
  writes : Nat

/-- Calls `ensureJsonExists(publicId, d)` twice in sequence, threading the
store state through. -/
def ensureTwice (publicId : String) (d : Json) (st : Store) : EnsureTwiceOut :=
  let e1 := ensureJsonExists publicId d st
  let e2 := ensureJsonExists publicId d e1.store
  ⟨e1.value, e2.value, e1.writes + e2.writes⟩

/-! ## JavaScript primitives used by the handlers -/

/-- JavaScript string-or-default `x || y` for an optional string field:
`undefined` (`none`) and the empty string are falsy, every other string is
truthy. -/
def jsOr (v : Option String) (old : String) : String :=
  match v with
  | some s => if s = "" then old else s
  | none => old

/-- JavaScript whitespace accepted by `parseInt` (ASCII subset plus NBSP;
the handlers only ever receive URL path segments). -/
def isJsWhitespace (c : Char) : Bool :=
  c = ' ' || c = '\t' || c = '\n' || c = '\r' || c = '\x0b' || c = '\x0c' || c = '\xa0'

/-- Value of a decimal digit, `none` for any other character. -/
def decDigitVal (c : Char) : Option Nat :=
  if '0' ≤ c && c ≤ '9' then some (c.toNat - 48) else none

/-- Value of a hexadecimal digit, `none` for any other character. -/
def hexDigitVal (c : Char) : Option Nat :=
  if '0' ≤ c && c ≤ '9' then some (c.toNat - 48)
  else if 'a' ≤ c && c ≤ 'f' then some (c.toNat - 87)
  else if 'A' ≤ c && c ≤ 'F' then some (c.toNat - 55)
  else none

/-- JavaScript `parseInt(s)` with the radix argument omitted (as in the
part_001 handlers): skip leading whitespace, optional `+`/`-` sign, a
`0x`/`0X` prefix selects base 16, then the longest run of digits of the
selected base; no digits means `NaN`, modelled as `none`. -/
def jsParseInt (s : String) : Option Int :=
  let cs := s.data.dropWhile isJsWhitespace
  let signAndRest : Int × List Char :=
    match cs with
    | '-' :: t => (-1, t)
    | '+' :: t => (1, t)
    | _ => (1, cs)
  let radixAndRest : Nat × List Char :=
    match signAndRest.2 with
    | '0' :: 'x' :: t => (16, t)
    | '0' :: 'X' :: t => (16, t)
    | _ => (10, signAndRest.2)
  let dv := if radixAndRest.1 = 16 then hexDigitVal else decDigitVal
  let ds := radixAndRest.2.takeWhile (fun c => (dv c).isSome)
  if ds.isEmpty then none
  else some (signAndRest.1 * (ds.foldl (fun acc c => acc * radixAndRest.1 + (dv c).getD 0) 0 : Nat))

/-- JavaScript `parseInt(s, 10)` with an explicit radix of 10, as used by the
part_000 handlers: like `jsParseInt` but with no hexadecimal prefix. -/
def jsParseInt10 (s : String) : Option Int :=
  let cs := s.data.dropWhile isJsWhitespace
  let signAndRest : Int × List Char :=
    match cs with
    | '-' :: t => (-1, t)
    | '+' :: t => (1, t)
    | _ => (1, cs)
  let ds := signAndRest.2.takeWhile (fun c => (decDigitVal c).isSome)
  if ds.isEmpty then none
  else some (signAndRest.1 * (ds.foldl (fun acc c => acc * 10 + (decDigitVal c).getD 0) 0 : Nat))

/-- JavaScript `Array.prototype.findIndex`: index of the first element
satisfying the predicate; the JS result `-1` is modelled as `none`. -/
def jsFindIndex {α : Type} (p : α → Bool) : List α → Option Nat
  | [] => none
  | a :: l => if p a then some 0 else (jsFindIndex p l).map (· + 1)

/-! ## Cloudinary public id normalization (part_000, lines 237-244) -/

/-- The regex replace `originalId.replace(/\.[^/.]+$/, "")`: strip a trailing
`.ext` where `ext` is a nonempty run of characters containing neither `/` nor
`.`; otherwise return the string unchanged. -/
def stripExtension (s : String) : String :=
  let rev := s.data.reverse
  let ext := rev.takeWhile (fun c => c ≠ '.' && c ≠ '/')
  let rest := rev.drop ext.length
  match rest with
  | '.' :: stem => if ext.isEmpty then s else String.mk stem.reverse
  | _ => s

/-- Public id normalization performed by the part_000 DELETE handler before
calling `destroy`: strip a trailing extension, and if the result contains no
folder separator, prefix the products folder. -/
def normalizePublicId (originalId : String) : String :=
  let publicId := stripExtension originalId
  if publicId.data.contains '/' then publicId else "bstore_products/" ++ publicId

/-! ## Products (part_001 lines 282-351, part_000 lines 160-261) -/

/-- A product record as built by `POST /products`: `id` is `Date.now()` (a JS
number holding an integer), the remaining fields are strings; `cloudinaryId`
is the blob-store reference (`""` models an absent/empty id, which is falsy
in the `if (product.cloudinaryId)` guards). -/
structure Product where
  id : Int
  name : String
  price : String
  description : String
  imageUrl : String
  cloudinaryId : String
deriving DecidableEq, Repr

/-- Placeholder product for (never-taken) out-of-range list indexing. -/
def dfltProduct : Product := ⟨0, "", "", "", "", ""⟩

/-- The lookup predicate `p.id === parseInt(req.params.id)` of the part_001
PUT and DELETE product handlers (`parseInt` with no radix argument); a `NaN`
result compares unequal to every id. -/
def productIdPred (pathId : String) (p : Product) : Bool :=
  match jsParseInt pathId with
  | some n => p.id == n
  | none => false

/-- The lookup predicate `p.id === parseInt(id, 10)` of the part_000 DELETE
handler (explicit radix 10). -/
def productIdPred10 (pathId : String) (p : Product) : Bool :=
  match jsParseInt10 pathId with
  | some n => p.id == n
  | none => false

/-- HTTP outcome of a handler: a JSON success body with its `message`, a 404
with its `error` string, or an abort caused by an uncaught rejection inside
the `async` handler (no response is produced on that path). -/
inductive HResp where
  | ok (message : String)
  | notFound (error : String)
  | thrown
deriving DecidableEq, Repr

/-- Result of `ensureJsonExists(name, [])` specialised to an array-valued
document, as used by every collection handler: `none` models an absent
document (the empty default is then written — one store write), `some l`
models a stored array (a JS array is always truthy, so it is returned
unchanged with no write). -/
structure EnsureListOut (α : Type) where
  value : List α
  store : Option (List α)
  writes : Nat

/-- The `await ensureJsonExists(name, [])` step of the collection handlers. -/
def ensureList {α : Type} (st : Option (List α)) : EnsureListOut α :=
  match st with
  | none => ⟨[], some [], 1⟩
  | some l => ⟨l, some l, 0⟩

/-- Body and file of a `PUT /products/:id` request: each multipart text field
is `none` when absent; `file` is `some (path, filename)` — the Cloudinary
secure URL and public id — when an image was attached. -/
structure PutBody where
  name : Option String
  price : Option String
  description : Option String
  file : Option (String × String)

/-- The `name`/`price`/`description` assignments of the PUT handler
(part_001 lines 325-327): each field is replaced only when the supplied value
is truthy, via `req.body.x || products[index].x`. -/
def applyBodyFields (body : PutBody) (p : Product) : Product :=
  { p with
    name := jsOr body.name p.name
    price := jsOr body.price p.price
    description := jsOr body.description p.description }

/-- Output of `PUT /products/:id`: response, the response's `product` field
(absent on the failure paths), the products document afterwards, the number
of document-store writes, and the public ids passed to
`cloudinary.uploader.destroy`. -/
structure PutOut where
  resp : HResp
  product : Option Product
  store : Option (List Product)
  saves : Nat
  destroyCalls : List String
deriving DecidableEq, Repr

/-- The part_001 `PUT /products/:id` handler (lines 312-331):
`ensureJsonExists("products", [])`, `findIndex` on `parseInt(req.params.id)`,
404 when absent; with a new file the old blob is destroyed first — with no
`try`/`catch`, so a rejection (`destroyFails`) aborts the handler — then the
image fields are replaced; then the `||`-guarded field updates, save, respond. -/
def putProductCloud (pathId : String) (body : PutBody) (st : Option (List Product))
    (destroyFails : Bool) : PutOut :=
  let e := ensureList st
  match jsFindIndex (productIdPred pathId) e.value with
  | none => ⟨.notFound "Product not found", none, e.store, e.writes, []⟩
  | some index =>
    let p := e.value.getD index dfltProduct
    match body.file with
    | some fileInfo =>
      let calls := if p.cloudinaryId ≠ "" then [p.cloudinaryId] else []
      if p.cloudinaryId ≠ "" && destroyFails then
        ⟨.thrown, none, e.store, e.writes, calls⟩
      else
        let p1 := { p with imageUrl := fileInfo.1, cloudinaryId := fileInfo.2 }
        let p2 := applyBodyFields body p1
        ⟨.ok "Product updated", some p2, some (e.value.set index p2), e.writes + 1, calls⟩
    | none =>
      let p2 := applyBodyFields body p
      ⟨.ok "Product updated", some p2, some (e.value.set index p2), e.writes + 1, []⟩

/-- Output of a DELETE handler over the cloud document store. -/
structure DeleteOut where
  resp : HResp
  store : Option (List Product)
  saves : Nat
  destroyCalls : List String
deriving DecidableEq, Repr

/-- The part_001 `DELETE /products/:id` handler (lines 334-351):
`ensureJsonExists("products", [])`, `findIndex` on `parseInt(req.params.id)`,
404 when absent; when the record has a truthy `cloudinaryId` the blob is
destroyed with *no* `try`/`catch`, so a rejection aborts the handler before
the record is removed; otherwise `splice(index, 1)`, save, respond. -/
def deleteProductCloud (pathId : String) (st : Option (List Product))
    (destroyFails : Bool) : DeleteOut :=
  let e := ensureList st
  match jsFindIndex (productIdPred pathId) e.value with
  | none => ⟨.notFound "Product not found", e.store, e.writes, []⟩
  | some index =>
    let product := e.value.getD index dfltProduct
    let calls := if product.cloudinaryId ≠ "" then [product.cloudinaryId] else []
    if product.cloudinaryId ≠ "" && destroyFails then
      ⟨.thrown, e.store, e.writes, calls⟩
    else
      ⟨.ok "Product deleted", some (e.value.eraseIdx index), e.writes + 1, calls⟩

/-- Output of the part_000 local-JSON DELETE handler: response, the
`products.json` contents afterwards (the file always exists), and the public
ids passed to `destroy`. -/
structure DeleteLocalOut where
  resp : HResp
  products : List Product
  destroyCalls : List String
deriving DecidableEq, Repr

/-- The part_000 `DELETE /products/:id` handler (lines 228-261): `findIndex`
on `parseInt(req.params.id, 10)`, 404 when absent; the destroy public id is
re-derived from the stored `cloudinaryId` by `normalizePublicId`, the destroy
is wrapped in `try`/`catch` so a rejection is logged and ignored, then
`splice(index, 1)` and write the file. -/
def deleteProductLocal (pathId : String) (products : List Product)
    (destroyFails : Bool) : DeleteLocalOut :=
  match jsFindIndex (productIdPred10 pathId) products with
  | none => ⟨.notFound "Product not found", products, []⟩
  | some index =>
    let product := products.getD index dfltProduct
    let publicId := normalizePublicId product.cloudinaryId
    -- `try { await destroy(publicId, ...) } catch (err) { log }`:
    -- `destroyFails` does not influence the control flow.
    ⟨.ok "Product deleted", products.eraseIdx index, [publicId]⟩

/-! ## Receipts (part_001 lines 221-279) -/

/-- A cart item as produced by a successful `JSON.parse` of the `cartItems`
form field: the four fields the handler projects out, plus whatever other
fields the client sent (dropped by the projection). -/
structure CartItemSrc where
  id : Json
  name : Json
  price : Json
  quantity : Json
  extra : List (String × Json)

/-- The `{id, name, price, quantity}` projection of a cart item. -/
structure CartItemMin where
  id : Json
  name : Json
  price : Json
  quantity : Json

/-- The `minimalCartItems` projection (part_001 lines 230-235). -/
def minimalCartItem (item : CartItemSrc) : CartItemMin :=
  ⟨item.id, item.name, item.price, item.quantity⟩

/-- A receipt record as built by `POST /upload` (part_001 lines 237-250);
`receiptUrl`/`cloudinaryId` are present only when a file was attached. -/
structure Receipt where
  orderId : String
  cname : String
  note : String
  total : String
  paymentMethod : String
  uploadedAt : String
  cartItems : List CartItemMin
  receiptUrl : Option String
  cloudinaryId : Option String

/-- Body of a `POST /upload` request.  `cartItems` is the outcome of
`JSON.parse` on the `cartItems` form field inside the handler's `try`:
`none` models the `catch` path (the field is absent, or a string that is not
valid JSON), `some items` a successful parse to an array.  (A successful
parse to a non-array JSON value would make the subsequent `.map` throw; that
input space is outside the claims considered here.) -/
structure UploadBody where
  total : Option String
  timestamp : Option String
  note : Option String
  cname : Option String
  orderId : Option String
  paymentMethod : Option String
  cartItems : Option (List CartItemSrc)
  file : Option (String × String)

/-- Output of `POST /upload`: response, the receipt echoed in the response
body, the receipts document afterwards, and the number of store writes. -/
structure UploadOut where
  resp : HResp
  receipt : Receipt
  store : Option (List Receipt)
  saves : Nat

/-- The part_001 `POST /upload` handler (lines 221-257): parse `cartItems`
(malformed JSON silently becomes `[]`), project each item down to
`{id, name, price, quantity}`, build the receipt with `||` defaults
(`orderId` falls back to `"ORD" + Date.now()`, `uploadedAt` to
`new Date().toISOString()`), `unshift` onto the receipts collection, save. -/
def uploadReceipt (body : UploadBody) (now : Nat) (nowIso : String)
    (st : Option (List Receipt)) : UploadOut :=
  let cartItems : List CartItemSrc :=
    match body.cartItems with
    | none => []
    | some items => items
  let minimalCartItems := cartItems.map minimalCartItem
  let receiptMeta : Receipt :=
    { orderId := jsOr body.orderId ("ORD" ++ toString now)
      cname := jsOr body.cname ""
      note := jsOr body.note ""
      total := jsOr body.total "0.00"
      paymentMethod := jsOr body.paymentMethod ""
      uploadedAt := jsOr body.timestamp nowIso
      cartItems := minimalCartItems
      receiptUrl := body.file.map Prod.fst
      cloudinaryId := body.file.map Prod.snd }
  let e := ensureList st
  ⟨.ok "Receipt saved", receiptMeta, some (receiptMeta :: e.value), e.writes + 1⟩

/-- Output of `GET /receipts`. -/
structure ListReceiptsOut where
  items : List Receipt
  store : Option (List Receipt)
  saves : Nat

/-- The part_001 `GET /receipts` handler (lines 260-263). -/
def getReceipts (st : Option (List Receipt)) : ListReceiptsOut :=
  let e := ensureList st
  ⟨e.value, e.store, e.writes⟩

/-- Output of `DELETE /receipts/:orderId`. -/
structure DeleteReceiptOut where
  resp : HResp
  store : Option (List Receipt)
  saves : Nat

/-- The part_001 `DELETE /receipts/:orderId` handler (lines 267-279):
`findIndex` on `r.orderId === req.params.orderId`, 404 when absent,
otherwise `splice(index, 1)` and save. -/
def deleteReceipt (orderId : String) (st : Option (List Receipt)) : DeleteReceiptOut :=
  let e := ensureList st
  match jsFindIndex (fun r => r.orderId == orderId) e.value with
  | none => ⟨.notFound "Receipt not found", e.store, e.writes⟩
  | some index => ⟨.ok "Receipt deleted", some (e.value.eraseIdx index), e.writes + 1⟩

/-! ## Helper lemmas -/

theorem jsFindIndex_eq_none {α : Type} {p : α → Bool} {l : List α}
    (h : ∀ a ∈ l, p a = false) : jsFindIndex p l = none := by
  induction l with
  | nil => rfl
  | cons a l ih =>
    have ha : p a = false := h a (List.mem_cons_self a l)
    simp only [jsFindIndex, ha, if_false, Bool.false_eq_true]
    rw [ih fun b hb => h b (List.mem_cons_of_mem a hb)]
    rfl

theorem jsFindIndex_split {α : Type} {p : α → Bool} :
    ∀ {l : List α} {i : Nat}, jsFindIndex p l = some i →
      ∃ pre m suf, l = pre ++ m :: suf ∧ pre.length = i ∧
        (∀ a ∈ pre, p a = false) ∧ p m = true := by
  intro l
  induction l with
  | nil => intro i h; simp [jsFindIndex] at h
  | cons a l ih =>
    intro i h
    by_cases ha : p a = true
    · refine ⟨[], a, l, by simp, ?_, by simp, ha⟩
      simp only [jsFindIndex, ha, if_true] at h
      simpa using Option.some.inj h
    · have ha' : p a = false := by simpa using ha
      simp only [jsFindIndex, ha', if_false, Bool.false_eq_true, Option.map_eq_some'] at h
      obtain ⟨j, hj, hij⟩ := h
      obtain ⟨pre, m, suf, hl, hlen, hpre, hm⟩ := ih hj
      refine ⟨a :: pre, m, suf, by simp [hl], by simp [hlen, hij], ?_, hm⟩
      intro b hb
      rcases List.mem_cons.mp hb with hb | hb
      · simpa [hb] using ha'
      · exact hpre b hb

theorem getD_append_cons {α : Type} (pre : List α) (m : α) (suf : List α) (d : α) :
    (pre ++ m :: suf).getD pre.length d = m := by
  induction pre with
  | nil => rfl
  | cons a pre ih => simpa using ih

theorem eraseIdx_append_cons {α : Type} (pre : List α) (m : α) (suf : List α) :
    (pre ++ m :: suf).eraseIdx pre.length = pre ++ suf := by
  induction pre with
  | nil => rfl
  | cons a pre ih => simpa [List.eraseIdx] using ih

/-! ## Claims -/

/-- C1: the claim states that `DELETE /products/:id` always succeeds and
removes the record even when the blob-store delete of the associated asset
fails.  The part_000 handler wraps `destroy` in `try`/`catch` and satisfies
this; the part_001 cloud handler awaits `destroy` with no `try`/`catch`, so
on the concrete failing input — one stored product with id 1 and a nonempty
`cloudinaryId`, with the destroy rejecting — the handler aborts: no success
response, the record is not removed, and no save is performed, contradicting
the claim and the spec's stated fire-and-forget design. -/
theorem claim_C1_blob_delete_failure_aborts :
    (deleteProductCloud "1" (some [⟨1, "n", "1.00", "d", "url", "img1"⟩]) true).resp
        = HResp.thrown ∧
      (deleteProductCloud "1" (some [⟨1, "n", "1.00", "d", "url", "img1"⟩]) true).store
        = some [⟨1, "n", "1.00", "d", "url", "img1"⟩] ∧
      (deleteProductCloud "1" (some [⟨1, "n", "1.00", "d", "url", "img1"⟩]) true).saves = 0 ∧
      (deleteProductLocal "1" [⟨1, "n", "1.00", "d", "url", "img1"⟩] true).resp
        = HResp.ok "Product deleted" ∧
      (deleteProductLocal "1" [⟨1, "n", "1.00", "d", "url", "img1"⟩] true).products = [] := by
  decide

/-- C2 (counterexample): the claim states that the blob id passed to the
blob-store delete is always the stored `assetId` with its extension stripped
and the products folder prefixed when no separator is present.  For a stored
product with `cloudinaryId = "123.jpg"`, the part_001 cloud DELETE handler
passes `"123.jpg"` verbatim, while the normalized derivation the claim
describes yields `"bstore_products/123"` — only the part_000 handler passes
the normalized id. -/
theorem claim_C2_counterexample :
    (deleteProductCloud "123" (some [⟨123, "n", "1", "d", "u", "123.jpg"⟩]) false).destroyCalls
        = ["123.jpg"] ∧
      normalizePublicId "123.jpg" = "bstore_products/123" ∧
      ("123.jpg" : String) ≠ "bstore_products/123" ∧
      (deleteProductLocal "123" [⟨123, "n", "1", "d", "u", "123.jpg"⟩] false).destroyCalls
        = ["bstore_products/123"] := by
  decide

/-- C2 (amended): whenever `DELETE /products/:id` finds a matching record,
the part_000 handler passes to `destroy` the stored `cloudinaryId` with a
trailing extension stripped and the `bstore_products` folder prefixed when
the result has no folder separator, whereas the part_001 cloud handler
passes the stored `cloudinaryId` unchanged (and makes no destroy call at all
when it is empty). -/
theorem claim_C2_amended (ps qs : List Product) (pid qid : String) (i j : Nat)
    (df df' : Bool)
    (hi : jsFindIndex (productIdPred10 pid) ps = some i)
    (hj : jsFindIndex (productIdPred qid) qs = some j) :
    (deleteProductLocal pid ps df).destroyCalls
        = [normalizePublicId (ps.getD i dfltProduct).cloudinaryId] ∧
      (deleteProductCloud qid (some qs) df').destroyCalls
        = (if (qs.getD j dfltProduct).cloudinaryId ≠ ""
            then [(qs.getD j dfltProduct).cloudinaryId] else []) := by
  constructor
  · simp [deleteProductLocal, hi]
  · simp only [deleteProductCloud, ensureList, hj]
    by_cases hdf : df' = true <;> simp [hdf] <;> split <;> rfl

/-- C2 (witness for the amended theorem). -/
theorem claim_C2_amended_witness :
    (deleteProductLocal "7" [⟨7, "n", "1", "d", "u", "x.png"⟩] false).destroyCalls
        = [normalizePublicId (([⟨7, "n", "1", "d", "u", "x.png"⟩] : List Product).getD 0
            dfltProduct).cloudinaryId] ∧
      (deleteProductCloud "7" (some [⟨7, "n", "1", "d", "u", "x.png"⟩]) false).destroyCalls
        = (if (([⟨7, "n", "1", "d", "u", "x.png"⟩] : List Product).getD 0
              dfltProduct).cloudinaryId ≠ ""
            then [(([⟨7, "n", "1", "d", "u", "x.png"⟩] : List Product).getD 0
              dfltProduct).cloudinaryId] else []) :=
  claim_C2_amended [⟨7, "n", "1", "d", "u", "x.png"⟩] [⟨7, "n", "1", "d", "u", "x.png"⟩]
    "7" "7" 0 0 false false (by decide) (by decide)

/-- C3: a `POST /upload` whose `cartItems` form field fails `JSON.parse`
(the field is a string that is not valid JSON, modelled by the parse outcome
`none`) still succeeds, and the stored receipt record — prepended to the
collection — has an empty `cartItems` sequence. -/
theorem claim_C3_malformed_cart (body : UploadBody) (now : Nat) (nowIso : String)
    (st : Option (List Receipt)) (h : body.cartItems = none) :
    (uploadReceipt body now nowIso st).resp = HResp.ok "Receipt saved" ∧
      (uploadReceipt body now nowIso st).receipt.cartItems = [] ∧
      (uploadReceipt body now nowIso st).store
        = some ((uploadReceipt body now nowIso st).receipt :: (ensureList st).value) := by
  refine ⟨rfl, ?_, rfl⟩
  simp [uploadReceipt, h]

/-- C3 (witness). -/
theorem claim_C3_malformed_cart_witness :
    (uploadReceipt (UploadBody.mk none none none none none none none none) 5 "iso" none).resp
        = HResp.ok "Receipt saved" ∧
      (uploadReceipt (UploadBody.mk none none none none none none none none) 5 "iso"
          none).receipt.cartItems = [] ∧
      (uploadReceipt (UploadBody.mk none none none none none none none none) 5 "iso" none).store
        = some ((uploadReceipt (UploadBody.mk none none none none none none none none) 5 "iso"
              none).receipt
            :: (ensureList (none : Option (List Receipt))).value) :=
  claim_C3_malformed_cart (UploadBody.mk none none none none none none none none) 5 "iso" none rfl

/-- C4: starting from any stored receipts collection, three `POST /upload`
calls with truthy orderIds A, then B, then C each prepend their record to the
collection, and a subsequent `GET /receipts` returns the three records
newest-first — C's, then B's, then A's — followed by the pre-existing
records. -/
theorem claim_C4_receipt_ordering (rs0 : List Receipt) (bA bB bC : UploadBody)
    (nA nB nC : Nat) (iA iB iC : String) (A B C : String)
    (hA : bA.orderId = some A) (hB : bB.orderId = some B) (hC : bC.orderId = some C)
    (hA' : A ≠ "") (hB' : B ≠ "") (hC' : C ≠ "") :
    (uploadReceipt bA nA iA (some rs0)).receipt.orderId = A ∧
      (uploadReceipt bB nB iB (uploadReceipt bA nA iA (some rs0)).store).receipt.orderId = B ∧
      (uploadReceipt bC nC iC
          (uploadReceipt bB nB iB (uploadReceipt bA nA iA (some rs0)).store).store).receipt.orderId
        = C ∧
      (uploadReceipt bA nA iA (some rs0)).store
        = some ((uploadReceipt bA nA iA (some rs0)).receipt :: rs0) ∧
      (uploadReceipt bB nB iB (uploadReceipt bA nA iA (some rs0)).store).store
        = some ((uploadReceipt bB nB iB (uploadReceipt bA nA iA (some rs0)).store).receipt
            :: (uploadReceipt bA nA iA (some rs0)).receipt :: rs0) ∧
      (uploadReceipt bC nC iC
            (uploadReceipt bB nB iB (uploadReceipt bA nA iA (some rs0)).store).store).store
        = some ((uploadReceipt bC nC iC
              (uploadReceipt bB nB iB (uploadReceipt bA nA iA (some rs0)).store).store).receipt
            :: (uploadReceipt bB nB iB (uploadReceipt bA nA iA (some rs0)).store).receipt
            :: (uploadReceipt bA nA iA (some rs0)).receipt :: rs0) ∧
      (getReceipts (uploadReceipt bC nC iC
            (uploadReceipt bB nB iB (uploadReceipt bA nA iA (some rs0)).store).store).store).items
        = (uploadReceipt bC nC iC
              (uploadReceipt bB nB iB (uploadReceipt bA nA iA (some rs0)).store).store).receipt
            :: (uploadReceipt bB nB iB (uploadReceipt bA nA iA (some rs0)).store).receipt
            :: (uploadReceipt bA nA iA (some rs0)).receipt :: rs0 := by
  refine ⟨?_, ?_, ?_, rfl, rfl, rfl, rfl⟩ <;>
    simp [uploadReceipt, jsOr, hA, hB, hC, hA', hB', hC']

/-- C4 (witness). -/
theorem claim_C4_receipt_ordering_witness :
    (uploadReceipt (UploadBody.mk none none none none (some "A") none none none) 1 "i"
          (some [])).receipt.orderId = "A" ∧
      (uploadReceipt (UploadBody.mk none none none none (some "B") none none none) 2 "i"
          (uploadReceipt (UploadBody.mk none none none none (some "A") none none none) 1 "i"
              (some [])).store).receipt.orderId = "B" ∧
      (uploadReceipt (UploadBody.mk none none none none (some "C") none none none) 3 "i"
          (uploadReceipt (UploadBody.mk none none none none (some "B") none none none) 2 "i"
              (uploadReceipt (UploadBody.mk none none none none (some "A") none none none) 1 "i"
                  (some [])).store).store).receipt.orderId = "C" ∧
      (uploadReceipt (UploadBody.mk none none none none (some "A") none none none) 1 "i"
          (some [])).store
        = some [(uploadReceipt (UploadBody.mk none none none none (some "A") none none none) 1 "i"
              (some [])).receipt] ∧
      (uploadReceipt (UploadBody.mk none none none none (some "B") none none none) 2 "i"
          (uploadReceipt (UploadBody.mk none none none none (some "A") none none none) 1 "i"
              (some [])).store).store
        = some [(uploadReceipt (UploadBody.mk none none none none (some "B") none none none) 2 "i"
              (uploadReceipt (UploadBody.mk none none none none (some "A") none none none) 1 "i"
                  (some [])).store).receipt,
            (uploadReceipt (UploadBody.mk none none none none (some "A") none none none) 1 "i"
              (some [])).receipt] ∧
      (uploadReceipt (UploadBody.mk none none none none (some "C") none none none) 3 "i"
          (uploadReceipt (UploadBody.mk none none none none (some "B") none none none) 2 "i"
              (uploadReceipt (UploadBody.mk none none none none (some "A") none none none) 1 "i"
                  (some [])).store).store).store
        = some [(uploadReceipt (UploadBody.mk none none none none (some "C") none none none) 3 "i"
              (uploadReceipt (UploadBody.mk none none none none (some "B") none none none) 2 "i"
                  (uploadReceipt (UploadBody.mk none none none none (some "A") none none none) 1
                      "i" (some [])).store).store).receipt,
            (uploadReceipt (UploadBody.mk none none none none (some "B") none none none) 2 "i"
              (uploadReceipt (UploadBody.mk none none none none (some "A") none none none) 1 "i"
                  (some [])).store).receipt,
            (uploadReceipt (UploadBody.mk none none none none (some "A") none none none) 1 "i"
              (some [])).receipt] ∧
      (getReceipts (uploadReceipt (UploadBody.mk none none none none (some "C") none none none) 3
            "i" (uploadReceipt (UploadBody.mk none none none none (some "B") none none none) 2 "i"
              (uploadReceipt (UploadBody.mk none none none none (some "A") none none none) 1 "i"
                  (some [])).store).store).store).items
        = [(uploadReceipt (UploadBody.mk none none none none (some "C") none none none) 3 "i"
              (uploadReceipt (UploadBody.mk none none none none (some "B") none none none) 2 "i"
                  (uploadReceipt (UploadBody.mk none none none none (some "A") none none none) 1
                      "i" (some [])).store).store).receipt,
            (uploadReceipt (UploadBody.mk none none none none (some "B") none none none) 2 "i"
              (uploadReceipt (UploadBody.mk none none none none (some "A") none none none) 1 "i"
                  (some [])).store).receipt,
            (uploadReceipt (UploadBody.mk none none none none (some "A") none none none) 1 "i"
              (some [])).receipt] :=
  claim_C4_receipt_ordering []
    (UploadBody.mk none none none none (some "A") none none none)
    (UploadBody.mk none none none none (some "B") none none none)
    (UploadBody.mk none none none none (some "C") none none none)
    1 2 3 "i" "i" "i" "A" "B" "C" rfl rfl rfl (by decide) (by decide) (by decide)

/-- C5 (counterexample): the claim states that an unknown-id operation never
performs a save and leaves the stored collection identical.  When the
products document is *absent*, the `ensureJsonExists("products", [])` step of
`PUT /products/:id` writes the empty default before the not-found check: one
save is performed and the stored document changes from absent to the empty
array. -/
theorem claim_C5_counterexample :
    (putProductCloud "1" ⟨none, none, none, none⟩ none false).resp
        = HResp.notFound "Product not found" ∧
      (putProductCloud "1" ⟨none, none, none, none⟩ none false).saves = 1 ∧
      (putProductCloud "1" ⟨none, none, none, none⟩ none false).store = some [] ∧
      some ([] : List Product) ≠ (none : Option (List Product)) := by
  refine ⟨by decide, by decide, by decide, by simp⟩

/-- C5 (amended): provided the collection document is present in the store,
a `PUT /products/:id` or `DELETE /products/:id` whose id matches no product
and a `DELETE /receipts/:orderId` whose orderId matches no receipt return a
not-found error, perform no save, and leave the stored collection unchanged
(when the document is absent, the `ensure` step first persists the empty
default collection). -/
theorem claim_C5_amended (ps : List Product) (rs : List Receipt) (pid oid : String)
    (body : PutBody) (df df' : Bool)
    (hp : jsFindIndex (productIdPred pid) ps = none)
    (hr : jsFindIndex (fun r => r.orderId == oid) rs = none) :
    putProductCloud pid body (some ps) df
        = ⟨.notFound "Product not found", none, some ps, 0, []⟩ ∧
      deleteProductCloud pid (some ps) df'
        = ⟨.notFound "Product not found", some ps, 0, []⟩ ∧
      deleteReceipt oid (some rs) = ⟨.notFound "Receipt not found", some rs, 0⟩ := by
  refine ⟨?_, ?_, ?_⟩ <;>
    simp [putProductCloud, deleteProductCloud, deleteReceipt, ensureList, hp, hr]

/-- C5 (witness for the amended theorem). -/
theorem claim_C5_amended_witness :
    putProductCloud "1" ⟨none, none, none, none⟩ (some []) false
        = ⟨.notFound "Product not found", none, some [], 0, []⟩ ∧
      deleteProductCloud "1" (some []) false = ⟨.notFound "Product not found", some [], 0, []⟩ ∧
      deleteReceipt "x" (some []) = ⟨.notFound "Receipt not found", some [], 0⟩ :=
  claim_C5_amended [] [] "1" "x" ⟨none, none, none, none⟩ false false rfl rfl

/-- C6 (counterexample): the claim states that a PUT supplying only `price`
updates the price.  An empty-string `price` field is falsy, so the
`req.body.price || products[index].price` assignment retains the old price:
on a product priced `"1.00"`, supplying `price = ""` leaves the price
`"1.00"` instead of updating it. -/
theorem claim_C6_counterexample :
    (putProductCloud "5" ⟨none, some "", none, none⟩
          (some [⟨5, "n", "1.00", "d", "u", "c"⟩]) false).product
        = some ⟨5, "n", "1.00", "d", "u", "c"⟩ ∧
      ("1.00" : String) ≠ "" := by
  exact ⟨by decide, by decide⟩

/-- C6 (amended): a `PUT /products/:id` supplying only the `price` field,
with a truthy (non-empty) price string and no attached file, updates the
record's price and leaves its `name`, `description`, `imageUrl` and
`cloudinaryId` unchanged; the collection is saved with only that record
replaced. -/
theorem claim_C6_amended (ps : List Product) (pid pr : String) (i : Nat) (df : Bool)
    (hfind : jsFindIndex (productIdPred pid) ps = some i) (hpr : pr ≠ "") :
    putProductCloud pid ⟨none, some pr, none, none⟩ (some ps) df
      = ⟨.ok "Product updated", some { ps.getD i dfltProduct with price := pr },
          some (ps.set i { ps.getD i dfltProduct with price := pr }), 1, []⟩ := by
  simp [putProductCloud, ensureList, hfind, applyBodyFields, jsOr, hpr]

/-- C6 (witness for the amended theorem). -/
theorem claim_C6_amended_witness :
    putProductCloud "5" ⟨none, some "2.00", none, none⟩
        (some [⟨5, "n", "1.00", "d", "u", "c"⟩]) false
      = ⟨.ok "Product updated",
          some { ([⟨5, "n", "1.00", "d", "u", "c"⟩] : List Product).getD 0 dfltProduct with
            price := "2.00" },
          some (([⟨5, "n", "1.00", "d", "u", "c"⟩] : List Product).set 0
            { ([⟨5, "n", "1.00", "d", "u", "c"⟩] : List Product).getD 0 dfltProduct with
              price := "2.00" }), 1, []⟩ :=
  claim_C6_amended [⟨5, "n", "1.00", "d", "u", "c"⟩] "5" "2.00" 0 false (by decide) (by decide)

/-- C7 (counterexample): the claim states that two consecutive
`ensure(name, d)` calls perform at most one store write for every default
value.  `ensureJsonExists` tests `if (!data)`, so a JS-falsy stored value
counts as absent: with the empty-string default, the first call saves it and
the second call — loading the falsy saved value — saves it again, for two
writes (the two calls do return the same value). -/
theorem claim_C7_counterexample :
    (ensureTwice "settings" (Json.str "") Store.empty).first
        = (ensureTwice "settings" (Json.str "") Store.empty).second ∧
      ¬ ((ensureTwice "settings" (Json.str "") Store.empty).writes ≤ 1) :=
  ⟨rfl, by decide⟩

/-- C7 (amended): calling `ensureJsonExists(name, d)` twice in sequence with
no intervening save returns the same value from both calls, and — provided
the default value `d` is JS-truthy — performs at most one store write across
the two calls (a falsy default that gets saved is re-saved on every call). -/
theorem claim_C7_amended (name : String) (d : Json) (st : Store) (h : d.truthy = true) :
    (ensureTwice name d st).first = (ensureTwice name d st).second ∧
      (ensureTwice name d st).writes ≤ 1 := by
  unfold ensureTwice ensureJsonExists
  cases hload : loadJsonFromCloudinary name st with
  | none =>
    simp only [hload]
    have hload2 : loadJsonFromCloudinary name (saveJsonToCloudinary name d st) = some d := by
      simp [loadJsonFromCloudinary, saveJsonToCloudinary, List.lookup]
    simp [hload2, h]
  | some v =>
    by_cases hv : v.truthy = true
    · simp [hload, hv]
    · have hv' : v.truthy = false := by simpa using hv
      simp only [hload, hv', Bool.false_eq_true, if_false]
      have hload2 : loadJsonFromCloudinary name (saveJsonToCloudinary name d st) = some d := by
        simp [loadJsonFromCloudinary, saveJsonToCloudinary, List.lookup]
      simp [hload2, h]

/-- C7 (witness for the amended theorem). -/
theorem claim_C7_amended_witness :
    (ensureTwice "products" (Json.arr []) Store.empty).first
        = (ensureTwice "products" (Json.arr []) Store.empty).second ∧
      (ensureTwice "products" (Json.arr []) Store.empty).writes ≤ 1 :=
  claim_C7_amended "products" (Json.arr []) Store.empty rfl

/-- C8: for a collection name (products, receipts or settings) and any
default value, saving the value returned by `ensure(name, default)` and then
loading `name` returns exactly the value that was saved. -/
theorem claim_C8_roundtrip (name : String) (d : Json) (st : Store)
    (h : name = "products" ∨ name = "receipts" ∨ name = "settings") :
    loadJsonFromCloudinary name
        (saveJsonToCloudinary name (ensureJsonExists name d st).value
          (ensureJsonExists name d st).store)
      = some (ensureJsonExists name d st).value := by
  simp [loadJsonFromCloudinary, saveJsonToCloudinary, List.lookup]

/-- C8 (witness). -/
theorem claim_C8_roundtrip_witness :
    loadJsonFromCloudinary "products"
        (saveJsonToCloudinary "products" (ensureJsonExists "products" (Json.arr []) Store.empty).value
          (ensureJsonExists "products" (Json.arr []) Store.empty).store)
      = some (ensureJsonExists "products" (Json.arr []) Store.empty).value :=
  claim_C8_roundtrip "products" (Json.arr []) Store.empty (Or.inl rfl)

/-- C9 (counterexample): the claim states that a path id with no leading
digits never matches any product.  `parseInt` honors a leading sign, so the
path id `"+123"` — whose first character is `'+'`, not a digit — parses to
123 and `DELETE /products/+123` successfully deletes the product with
id 123 instead of returning not-found. -/
theorem claim_C9_counterexample :
    ("+123".data.head? = some '+') ∧ ('+'.isDigit = false) ∧
      (deleteProductCloud "+123" (some [⟨123, "n", "1", "d", "u", "c"⟩]) false).resp
        = HResp.ok "Product deleted" := by
  refine ⟨rfl, rfl, by decide⟩

/-- C9 (amended): the part_001 PUT and DELETE product handlers resolve the
target by comparing each stored product's id to JS `parseInt` of the path
segment (leading whitespace skipped, optional sign, `0x` hexadecimal prefix,
then the longest digit run — `NaN` when empty); a path id with trailing
non-digit characters such as `"123abc"` behaves exactly like `"123"`, and a
path id whose `parseInt` is `NaN` never matches and yields not-found. -/
theorem claim_C9_amended (st : Option (List Product)) (body : PutBody) (df df2 : Bool)
    (s : String) (h : jsParseInt s = none) :
    (deleteProductCloud s st df).resp = HResp.notFound "Product not found" ∧
      (putProductCloud s body st df).resp = HResp.notFound "Product not found" ∧
      deleteProductCloud "123abc" st df2 = deleteProductCloud "123" st df2 ∧
      putProductCloud "123abc" body st df2 = putProductCloud "123" body st df2 := by
  have hpred : productIdPred s = fun _ => false := by
    funext p
    simp [productIdPred, h]
  have hnone : jsFindIndex (productIdPred s) (ensureList st).value = none :=
    jsFindIndex_eq_none (by intro a _; rw [hpred])
  have heq : productIdPred "123abc" = productIdPred "123" := by
    funext p
    have h1 : jsParseInt "123abc" = some 123 := by decide
    have h2 : jsParseInt "123" = some 123 := by decide
    simp [productIdPred, h1, h2]
  refine ⟨?_, ?_, ?_, ?_⟩
  · simp [deleteProductCloud, hnone]
  · simp [putProductCloud, hnone]
  · unfold deleteProductCloud
    rw [heq]
  · unfold putProductCloud
    rw [heq]

/-- C9 (witness for the amended theorem). -/
theorem claim_C9_amended_witness :
    (deleteProductCloud "zz" (some []) false).resp = HResp.notFound "Product not found" ∧
      (putProductCloud "zz" ⟨none, none, none, none⟩ (some []) false).resp
        = HResp.notFound "Product not found" ∧
      deleteProductCloud "123abc" (some []) false = deleteProductCloud "123" (some []) false ∧
      putProductCloud "123abc" ⟨none, none, none, none⟩ (some []) false
        = putProductCloud "123" ⟨none, none, none, none⟩ (some []) false :=
  claim_C9_amended (some []) ⟨none, none, none, none⟩ false false "zz" (by decide)

/-- C10: whenever `DELETE /products/:id` matches at least one stored product
(and the blob delete does not fail — the failure path is claim C1's
concern), the collection splits as `pre ++ m :: suf` with `m` the first
matching record and no match in `pre`, and the persisted collection
afterwards is exactly `pre ++ suf`: only the first matching record is
removed, every other record is unchanged and keeps its relative order. -/
theorem claim_C10_delete_removes_first_match (ps : List Product) (pid : String) (i : Nat)
    (h : jsFindIndex (productIdPred pid) ps = some i) :
    ∃ pre m suf, ps = pre ++ m :: suf ∧ pre.length = i ∧
      (∀ a ∈ pre, productIdPred pid a = false) ∧ productIdPred pid m = true ∧
      (deleteProductCloud pid (some ps) false).resp = HResp.ok "Product deleted" ∧
      (deleteProductCloud pid (some ps) false).store = some (pre ++ suf) := by
  obtain ⟨pre, m, suf, hl, hlen, hpre, hm⟩ := jsFindIndex_split h
  refine ⟨pre, m, suf, hl, hlen, hpre, hm, ?_, ?_⟩
  · simp [deleteProductCloud, ensureList, h]
  · simp only [deleteProductCloud, ensureList, h]
    simp only [Bool.and_false, Bool.false_eq_true, if_false]
    rw [hl, ← hlen, eraseIdx_append_cons]

/-- C10 (witness). -/
theorem claim_C10_delete_removes_first_match_witness :
    ∃ pre m suf,
      ([⟨1, "n", "1", "d", "u", "c"⟩] : List Product) = pre ++ m :: suf ∧ pre.length = 0 ∧
      (∀ a ∈ pre, productIdPred "1" a = false) ∧ productIdPred "1" m = true ∧
      (deleteProductCloud "1" (some [⟨1, "n", "1", "d", "u", "c"⟩]) false).resp
        = HResp.ok "Product deleted" ∧
      (deleteProductCloud "1" (some [⟨1, "n", "1", "d", "u", "c"⟩]) false).store
        = some (pre ++ suf) :=
  claim_C10_delete_removes_first_match [⟨1, "n", "1", "d", "u", "c"⟩] "1" 0 (by decide)
